import Mathlib

/-!
Shallow embedding of `server/app.py`, a Flask + SQLAlchemy event-management
backend backed by a SQLite database.

Modelling choices:
* A JSON request body is a finite association list of string keys to scalar
  JSON values (the handlers only ever read scalar fields, so arrays/objects
  as field values are not modelled).  `dict.get` semantics (absent key gives
  `None`, optional default) are modelled by `ReqBody.get` / `ReqBody.getD`.
* JSON numbers are modelled as integers: the code performs no arithmetic on
  them, it only stores them and tests Python truthiness (where `0`/`0.0` are
  falsy).
* The database is four lists of rows, in insertion order.  No row is ever
  deleted, so the auto-assigned primary key of a fresh row is `length + 1`
  (SQLite rowid behaviour without deletes).
* Columns declared `nullable=False` in the models (`Event.title`,
  `Event.organizer_id`, ...) are enforced by SQLite: inserting NULL raises
  an IntegrityError which no handler catches, so Flask answers HTTP 500 and
  the transaction is not committed.  This is modelled by the 500 branches.
* `datetime.fromisoformat` is modelled executably after the CPython
  3.7-3.10 algorithm (the interpreter generation this app runs on: it still
  uses the `before_first_request` hook, removed in Flask 2.3):
  `YYYY-MM-DD[*HH[:MM[:SS[.fff[fff]]]][(+|-)HH:MM[:SS[.ffffff]]]]` with
  digit-strict components, calendar-aware day validation (leap years), year
  1..9999 and a strict 24-hour bound on the UTC offset; Python 3.11+ merely
  accepts additional ISO-8601 forms on top of these.  Calling it on a
  truthy non-string raises an uncaught TypeError, modelled as HTTP 500.
* Each `jsonify(...)` literal of the source becomes one constructor of
  `RespBody`, with fields named after the JSON keys.
-/

/-- A scalar JSON value as it appears in a request/response field. -/
inductive JVal where
  | null
  | jbool (b : Bool)
  | jint (n : Int)
  | jstr (s : String)
  deriving Repr, DecidableEq

/-- Python truthiness of a scalar JSON value: `None`, `False`, `0` and `""`
are falsy, everything else is truthy. -/
def JVal.truthy : JVal → Bool
  | .null => false
  | .jbool b => b
  | .jint n => n != 0
  | .jstr s => s != ""

/-- A JSON request body: association list from field names to scalar values. -/
def ReqBody := List (String × JVal)

/-- `data.get(k, d)`: the stored value if the key is present (even when that
value is JSON null), otherwise the default `d`. -/
def ReqBody.getD (b : ReqBody) (k : String) (d : JVal) : JVal :=
  match List.find? (fun kv => kv.1 == k) b with
  | some kv => kv.2
  | none => d

/-- `data.get(k)`: the stored value if present, otherwise `None`. -/
def ReqBody.get (b : ReqBody) (k : String) : JVal :=
  b.getD k .null

/-- A `datetime` value: calendar fields, microseconds, and for an aware
value the UTC offset in microseconds (`None` for a naive value). -/
structure PyDateTime where
  year : Nat
  month : Nat
  day : Nat
  hour : Nat
  minute : Nat
  second : Nat
  microsecond : Nat := 0
  utcoffset : Option Int := none
  deriving Repr, DecidableEq

/-- Zero-padded two-digit decimal rendering. -/
def pad2 (n : Nat) : String :=
  if n < 10 then "0" ++ toString n else toString n

/-- Zero-padded four-digit decimal rendering. -/
def pad4 (n : Nat) : String :=
  if n < 10 then "000" ++ toString n
  else if n < 100 then "00" ++ toString n
  else if n < 1000 then "0" ++ toString n
  else toString n

/-- Zero-padded six-digit decimal rendering (microseconds). -/
def pad6 (n : Nat) : String :=
  if n < 10 then "00000" ++ toString n
  else if n < 100 then "0000" ++ toString n
  else if n < 1000 then "000" ++ toString n
  else if n < 10000 then "00" ++ toString n
  else if n < 100000 then "0" ++ toString n
  else toString n

/-- `datetime.isoformat()`: `YYYY-MM-DDTHH:MM:SS`, then `.ffffff` when the
microsecond is non-zero, then the UTC offset `(+|-)HH:MM[:SS[.ffffff]]`
when the value is aware. -/
def PyDateTime.isoformat (d : PyDateTime) : String :=
  pad4 d.year ++ "-" ++ pad2 d.month ++ "-" ++ pad2 d.day ++ "T" ++
    pad2 d.hour ++ ":" ++ pad2 d.minute ++ ":" ++ pad2 d.second ++
    (if d.microsecond != 0 then "." ++ pad6 d.microsecond else "") ++
    (match d.utcoffset with
     | none => ""
     | some off =>
       let sign := if off < 0 then "-" else "+"
       let a := off.natAbs
       let us := a % 1000000
       let totalSec := a / 1000000
       let ss := totalSec % 60
       let totalMin := totalSec / 60
       let mm := totalMin % 60
       let hh := totalMin / 60
       sign ++ pad2 hh ++ ":" ++ pad2 mm ++
         (if ss != 0 || us != 0 then
           ":" ++ pad2 ss ++ (if us != 0 then "." ++ pad6 us else "")
         else ""))

/-- Numeric value of two decimal digit characters, if both are digits. -/
def digits2 (a b : Char) : Option Nat :=
  if a.isDigit && b.isDigit then
    some ((a.toNat - 48) * 10 + (b.toNat - 48))
  else none

/-- Numeric value of four decimal digit characters, if all are digits. -/
def digits4 (a b c d : Char) : Option Nat :=
  match digits2 a b, digits2 c d with
  | some hi, some lo => some (hi * 100 + lo)
  | _, _ => none

/-- `datetime`'s leap-year rule. -/
def isLeapYear (y : Nat) : Bool :=
  y % 4 == 0 && (y % 100 != 0 || y % 400 == 0)

/-- Days in a month, as validated by the `datetime` constructor. -/
def daysInMonth (y m : Nat) : Nat :=
  if m == 2 then (if isLeapYear y then 29 else 28)
  else if m == 4 || m == 6 || m == 9 || m == 11 then 30
  else 31

/-- Numeric value of a digit-only character run (the C implementation of
`fromisoformat` rejects anything but ASCII digits in a component). -/
def charsToNat (cs : List Char) : Option Nat :=
  if cs.all Char.isDigit then
    some (cs.foldl (fun acc c => acc * 10 + (c.toNat - 48)) 0)
  else none

/-- The fractional-second component: exactly 3 or 6 digits after the dot,
scaled to microseconds. -/
def parseFrac (cs : List Char) : Option Nat :=
  match cs.length, charsToNat cs with
  | 3, some v => some (v * 1000)
  | 6, some v => some v
  | _, _ => none

/-- `_parse_hh_mm_ss_ff`: `HH[:MM[:SS[.fff[fff]]]]`, two digits per
component, colon separators, no range checks here (the `datetime` and
`timezone` constructors do those). -/
def parseHMSF : List Char → Option (Nat × Nat × Nat × Nat)
  | [h1, h2] =>
    (digits2 h1 h2).map fun h => (h, 0, 0, 0)
  | [h1, h2, ':', m1, m2] =>
    match digits2 h1 h2, digits2 m1 m2 with
    | some h, some m => some (h, m, 0, 0)
    | _, _ => none
  | [h1, h2, ':', m1, m2, ':', s1, s2] =>
    match digits2 h1 h2, digits2 m1 m2, digits2 s1 s2 with
    | some h, some m, some s => some (h, m, s, 0)
    | _, _, _ => none
  | h1 :: h2 :: ':' :: m1 :: m2 :: ':' :: s1 :: s2 :: '.' :: frac =>
    match digits2 h1 h2, digits2 m1 m2, digits2 s1 s2, parseFrac frac with
    | some h, some m, some s, some f => some (h, m, s, f)
    | _, _, _, _ => none
  | _ => none

/-- The time part split at offset position `i` holding the sign character:
before it the local time, after it a `HH:MM[:SS[.ffffff]]` offset (length
5, 8 or 15) that `timezone` accepts only strictly below 24 hours. -/
def parseTimeTz (cs : List Char) (i : Nat) (sign : Int) :
    Option (Nat × Nat × Nat × Nat × Option Int) :=
  let timecs := cs.take i
  let tzcs := cs.drop (i + 1)
  if tzcs.length = 5 ∨ tzcs.length = 8 ∨ tzcs.length = 15 then
    match parseHMSF timecs, parseHMSF tzcs with
    | some (h, m, s, f), some (oh, om, osec, ous) =>
      let total : Nat := (((oh * 60) + om) * 60 + osec) * 1000000 + ous
      if total < 86400000000 then
        some (h, m, s, f, some (sign * Int.ofNat total))
      else none
    | _, _ => none
  else none

/-- `_parse_isoformat_time`: a time shorter than two characters is
rejected, then the string is split at the first `-` if any (else the first
`+` if any), exactly as CPython scans for the offset sign. -/
def parseIsoTime (cs : List Char) : Option (Nat × Nat × Nat × Nat × Option Int) :=
  if cs.length < 2 then none
  else
    match cs.findIdx? (fun c => c == '-'), cs.findIdx? (fun c => c == '+') with
    | some i, _ => parseTimeTz cs i (-1)
    | none, some i => parseTimeTz cs i 1
    | none, none =>
      (parseHMSF cs).map fun x => (x.1, x.2.1, x.2.2.1, x.2.2.2, none)

/-- The `datetime` constructor's range validation: year 1..9999, month
1..12, calendar-valid day, time fields in range, offset strictly below 24
hours in absolute value. -/
def mkDateTime (y mo d h mi s us : Nat) (off : Option Int) : Option PyDateTime :=
  if 1 ≤ y && y ≤ 9999 && 1 ≤ mo && mo ≤ 12 && 1 ≤ d && d ≤ daysInMonth y mo
      && h ≤ 23 && mi ≤ 59 && s ≤ 59 && us ≤ 999999
      && (match off with
          | some o => decide (o.natAbs < 86400000000)
          | none => true) then
    some ⟨y, mo, d, h, mi, s, us, off⟩
  else none

/-- Modelled from the Python standard library `datetime.fromisoformat` as
implemented in CPython 3.7-3.10 (this app still uses Flask's
`before_first_request`, removed in Flask 2.3, so it runs on that
interpreter generation; 3.11+ accepts additional ISO-8601 forms): a
10-character `YYYY-MM-DD` date, optionally followed by one separator
character (any character) and a time `HH[:MM[:SS[.fff[fff]]]]` with an
optional `(+|-)HH:MM[:SS[.ffffff]]` offset.  Any other shape or
out-of-range value raises `ValueError` in Python, `none` here. -/
def fromisoformat (str : String) : Option PyDateTime :=
  match str.toList with
  | y1 :: y2 :: y3 :: y4 :: '-' :: m1 :: m2 :: '-' :: d1 :: d2 :: rest =>
    match digits4 y1 y2 y3 y4, digits2 m1 m2, digits2 d1 d2 with
    | some y, some mo, some d =>
      match rest with
      | [] => mkDateTime y mo d 0 0 0 0 none
      | _sep :: tcs =>
        match parseIsoTime tcs with
        | some (h, mi, s, us, off) => mkDateTime y mo d h mi s us off
        | none => none
    | _, _, _ => none
  | _ => none

/-- A row of the `user` table. -/
structure UserRow where
  id : Nat
  username : JVal
  password : JVal
  role : JVal
  deriving Repr, DecidableEq

/-- A row of the `event` table. -/
structure EventRow where
  id : Nat
  title : JVal
  description : JVal
  date : Option PyDateTime
  location : JVal
  price : JVal
  organizer_id : JVal
  deriving Repr, DecidableEq

/-- A row of the `registration` table. -/
structure RegistrationRow where
  id : Nat
  attendee_id : JVal
  event_id : JVal
  registration_type : JVal
  deriving Repr, DecidableEq

/-- A row of the `payment` table. -/
structure PaymentRow where
  id : Nat
  user_id : JVal
  event_id : JVal
  amount : JVal
  payment_method : JVal
  status : String
  timestamp : PyDateTime
  deriving Repr, DecidableEq

/-- The database state: the four tables, rows in insertion order. -/
structure Db where
  users : List UserRow
  events : List EventRow
  registrations : List RegistrationRow
  payments : List PaymentRow
  deriving Repr, DecidableEq

/-- The empty database created by `db.create_all()`. -/
def dbInit : Db := ⟨[], [], [], []⟩

/-- The `username` column is declared `unique=True`: any state of the actual
database has pairwise distinct usernames. -/
def Db.usernamesUnique (db : Db) : Prop :=
  db.users.Pairwise (fun a b => a.username ≠ b.username)

/-- The JSON document produced for one event by `get_events` / `get_event`
(field names are the JSON keys of the dict literal in the source). -/
structure EventJson where
  id : Nat
  title : JVal
  description : JVal
  date : JVal
  location : JVal
  price : JVal
  organizer_id : JVal
  deriving Repr, DecidableEq

/-- The serialized summary of one event row:
`date` is `event.date.isoformat()` when present, JSON null otherwise. -/
def event_to_json (e : EventRow) : EventJson :=
  ⟨e.id, e.title, e.description,
    (match e.date with
     | some d => .jstr d.isoformat
     | none => .null),
    e.location, e.price, e.organizer_id⟩

/-- A response body; one constructor per `jsonify` shape in the source.
`empty` stands for the body of an unhandled-exception (500) or 404 page. -/
inductive RespBody where
  | empty
  | msg (message : String)
  | err (error : String)
  | loginOk (message : String) (id : Nat) (username : JVal) (role : JVal)
  | payOk (message : String) (paymentStatus : String)
  | eventList (l : List EventJson)
  | eventDetail (e : EventJson)
  deriving Repr, DecidableEq

/-- Result of handling one request: HTTP status, JSON body, new database. -/
structure HResult where
  status : Nat
  body : RespBody
  db : Db
  deriving Repr, DecidableEq

/-- `POST /api/users/register` (`register_user` in the source). -/
def register_user (db : Db) (data : ReqBody) : HResult :=
  let username := data.get "username"
  let password := data.get "password"
  let role := data.getD "role" (.jstr "user")
  if !username.truthy || !password.truthy then
    ⟨400, .err "Missing username or password", db⟩
  else if (List.find? (fun u => u.username == username) db.users).isSome then
    ⟨400, .err "Username already exists", db⟩
  else
    let new_user : UserRow := ⟨db.users.length + 1, username, password, role⟩
    ⟨200, .msg "User registered successfully",
      { db with users := db.users ++ [new_user] }⟩

/-- `POST /api/users/login` (`login_user` in the source). -/
def login_user (db : Db) (data : ReqBody) : HResult :=
  let username := data.get "username"
  let password := data.get "password"
  match List.find? (fun u => u.username == username && u.password == password)
      db.users with
  | some user =>
    ⟨200, .loginOk "Login successful" user.id user.username user.role, db⟩
  | none => ⟨400, .err "Invalid credentials", db⟩

/-- `GET /api/events` (`get_events` in the source): the loop appending one
summary per event row. -/
def get_events (db : Db) : HResult :=
  let event_list :=
    db.events.foldl (fun acc e => acc ++ [event_to_json e]) []
  ⟨200, .eventList event_list, db⟩

/-- `GET /api/events/<id>` (`get_event` in the source): primary-key lookup,
404 when absent. -/
def get_event (db : Db) (event_id : Nat) : HResult :=
  match List.find? (fun e => e.id == event_id) db.events with
  | some e => ⟨200, .eventDetail (event_to_json e), db⟩
  | none => ⟨404, .empty, db⟩

/-- The insert-and-commit tail of `create_event`.  `Event.title` and
`Event.organizer_id` are `nullable=False`; committing a NULL there raises
an IntegrityError that no handler catches (HTTP 500, nothing committed). -/
def insert_event (db : Db) (title description : JVal) (date : Option PyDateTime)
    (location price organizer_id : JVal) : HResult :=
  if title == .null || organizer_id == .null then
    ⟨500, .empty, db⟩
  else
    let new_event : EventRow :=
      ⟨db.events.length + 1, title, description, date, location, price,
        organizer_id⟩
    ⟨200, .msg "Event created successfully",
      { db with events := db.events ++ [new_event] }⟩

/-- `POST /api/events` (`create_event` in the source).  A truthy non-string
`date` makes `datetime.fromisoformat` raise a TypeError, which the
`except ValueError` clause does not catch (HTTP 500). -/
def create_event (db : Db) (data : ReqBody) : HResult :=
  let title := data.get "title"
  let description := data.get "description"
  let date_str := data.get "date"
  let location := data.get "location"
  let price := data.getD "price" (.jint 0)
  let organizer_id := data.get "organizer_id"
  if date_str.truthy then
    match date_str with
    | .jstr s =>
      match fromisoformat s with
      | some d => insert_event db title description (some d) location price organizer_id
      | none => ⟨400, .err "Invalid date format", db⟩
    | _ => ⟨500, .empty, db⟩
  else
    insert_event db title description none location price organizer_id

/-- `POST /api/registrations` (`register_to_event` in the source). -/
def register_to_event (db : Db) (data : ReqBody) : HResult :=
  let attendee_id := data.get "attendee_id"
  let event_id := data.get "event_id"
  let registration_type := data.getD "registration_type" (.jstr "general")
  if !attendee_id.truthy || !event_id.truthy then
    ⟨400, .err "Missing attendee_id or event_id", db⟩
  else
    let new_reg : RegistrationRow :=
      ⟨db.registrations.length + 1, attendee_id, event_id, registration_type⟩
    ⟨200, .msg "Registration successful",
      { db with registrations := db.registrations ++ [new_reg] }⟩

/-- `POST /api/payment` (`process_payment` in the source); `now` is the value
`datetime.utcnow` supplies for the `timestamp` column default. -/
def process_payment (db : Db) (data : ReqBody) (now : PyDateTime) : HResult :=
  let user_id := data.get "user_id"
  let event_id := data.get "event_id"
  let amount := data.get "amount"
  let payment_method := data.get "payment_method"
  if !(user_id.truthy && event_id.truthy && amount.truthy
      && payment_method.truthy) then
    ⟨400, .err "Missing payment details", db⟩
  else
    let new_payment : PaymentRow :=
      ⟨db.payments.length + 1, user_id, event_id, amount, payment_method,
        "successful", now⟩
    ⟨200, .payOk "Payment processed successfully" new_payment.status,
      { db with payments := db.payments ++ [new_payment] }⟩

/-- One API request, with its decoded JSON body where the endpoint reads one. -/
inductive Req where
  | registerUser (data : ReqBody)
  | loginUser (data : ReqBody)
  | getEvents
  | getEvent (event_id : Nat)
  | createEvent (data : ReqBody)
  | registerToEvent (data : ReqBody)
  | processPayment (data : ReqBody) (now : PyDateTime)

/-- Dispatch one request against the current database. -/
def Req.apply (db : Db) : Req → HResult
  | .registerUser data => register_user db data
  | .loginUser data => login_user db data
  | .getEvents => get_events db
  | .getEvent event_id => get_event db event_id
  | .createEvent data => create_event db data
  | .registerToEvent data => register_to_event db data
  | .processPayment data now => process_payment db data now

/-- Database states reachable through the API from the freshly created
schema. -/
inductive Reachable : Db → Prop where
  | init : Reachable dbInit
  | step (r : Req) {db : Db} : Reachable db → Reachable (Req.apply db r).db

/-! ### Behaviour of the `fromisoformat` model on representative inputs

Each line below reproduces the observed behaviour of CPython 3.7-3.10
`datetime.fromisoformat` on the same string (value components year, month,
day, hour, minute, second, microsecond, UTC offset in microseconds). -/

example : fromisoformat "not-a-date" = none := by decide
example : fromisoformat "" = none := by decide
example : fromisoformat "2024-01-01" = some ⟨2024, 1, 1, 0, 0, 0, 0, none⟩ := by decide
example : fromisoformat "2024-1-01" = none := by decide
example : fromisoformat "0000-01-01" = none := by decide
example : fromisoformat "2023-02-28" = some ⟨2023, 2, 28, 0, 0, 0, 0, none⟩ := by decide
example : fromisoformat "2023-02-31" = none := by decide
example : fromisoformat "2023-02-29" = none := by decide
example : fromisoformat "2024-02-29" = some ⟨2024, 2, 29, 0, 0, 0, 0, none⟩ := by decide
example : fromisoformat "2100-02-29" = none := by decide
example : fromisoformat "2000-02-29" = some ⟨2000, 2, 29, 0, 0, 0, 0, none⟩ := by decide
example : fromisoformat "2024-04-31" = none := by decide
example : fromisoformat "2024-13-01" = none := by decide
example : fromisoformat "2024-01-01T10" = some ⟨2024, 1, 1, 10, 0, 0, 0, none⟩ := by decide
example : fromisoformat "2024-01-01T10:30" = some ⟨2024, 1, 1, 10, 30, 0, 0, none⟩ := by decide
example : fromisoformat "2024-01-01 10:30" = some ⟨2024, 1, 1, 10, 30, 0, 0, none⟩ := by decide
example : fromisoformat "2024-01-01T10:30:45" = some ⟨2024, 1, 1, 10, 30, 45, 0, none⟩ := by decide
example : fromisoformat "2024-01-01T24:00:00" = none := by decide
example : fromisoformat "2024-01-01T10:60" = none := by decide
example : fromisoformat "2024-01-01T10:30:45.123" = some ⟨2024, 1, 1, 10, 30, 45, 123000, none⟩ := by decide
example : fromisoformat "2024-01-01T10:30:45.123456" = some ⟨2024, 1, 1, 10, 30, 45, 123456, none⟩ := by decide
example : fromisoformat "2024-01-01T10:30:45.12" = none := by decide
example : fromisoformat "2024-01-01T10:30+05:00" = some ⟨2024, 1, 1, 10, 30, 0, 0, some (18000000000 : Int)⟩ := by decide
example : fromisoformat "2024-01-01T10:30-05:00" = some ⟨2024, 1, 1, 10, 30, 0, 0, some (-18000000000 : Int)⟩ := by decide
example : fromisoformat "2024-01-01T10:30:45.123456+05:00" = some ⟨2024, 1, 1, 10, 30, 45, 123456, some (18000000000 : Int)⟩ := by decide
example : fromisoformat "2024-01-01T10:30+05:30:15.123456" = some ⟨2024, 1, 1, 10, 30, 0, 0, some (19815123456 : Int)⟩ := by decide
example : fromisoformat "2024-01-01T10:30+24:00" = none := by decide
example : fromisoformat "2024-01-01T10:30+23:59" = some ⟨2024, 1, 1, 10, 30, 0, 0, some (86340000000 : Int)⟩ := by decide
example : fromisoformat "2024-01-01T10:30+05" = none := by decide
example : fromisoformat "2024-01-01T10:30Z" = none := by decide
example : fromisoformat "2024-01-01T" = none := by decide
example : fromisoformat "2024-01-0110:30" = none := by decide
example : (fromisoformat "2024-01-01T10:30:45.123456+05:00").map PyDateTime.isoformat =
    some "2024-01-01T10:30:45.123456+05:00" := by decide
example : (fromisoformat "2024-01-01T10:30+05:30:15").map PyDateTime.isoformat =
    some "2024-01-01T10:30:00+05:30:15" := by decide
example : (fromisoformat "2024-01-01T00:00:00+00:00").map PyDateTime.isoformat =
    some "2024-01-01T00:00:00+00:00" := by decide

/-! ### Helper lemmas -/

theorem ReqBody.getD_cons_ne (b : ReqBody) (k k2 : String) (v : JVal) (d : JVal)
    (h : k2 ≠ k) : ReqBody.getD ((k2, v) :: b) k d = b.getD k d := by
  have hb : (k2 == k) = false := beq_eq_false_iff_ne.mpr h
  simp [ReqBody.getD, List.find?, hb]

theorem ReqBody.get_cons_ne (b : ReqBody) (k k2 : String) (v : JVal)
    (h : k2 ≠ k) : ReqBody.get ((k2, v) :: b) k = b.get k :=
  ReqBody.getD_cons_ne b k k2 v .null h

theorem foldl_event_to_json (l : List EventRow) (acc : List EventJson) :
    l.foldl (fun a e => a ++ [event_to_json e]) acc = acc ++ l.map event_to_json := by
  induction l generalizing acc with
  | nil => simp
  | cons e l ih => simp [List.foldl_cons, ih]

/-! ### C1 -/

/-- Claim C1, as stated, is false at username `""`: the empty string occurs in
no User row of the empty database and the password `"x"` is non-empty, yet
the register-user call is rejected with the missing-field error and inserts
nothing. -/
theorem C1_counterexample :
    register_user dbInit [("username", .jstr ""), ("password", .jstr "x")] =
      ⟨400, .err "Missing username or password", dbInit⟩ := by decide

/-- Claim C1 (amended: the username must also be non-empty): registering a
non-empty, unused username `u` with a non-empty password `p` succeeds,
inserts exactly one User row, and a subsequent login with `u`, `p` succeeds
and returns that user's id, username and role. -/
theorem C1_register_then_login (db : Db) (u p : String)
    (hu : u ≠ "") (hp : p ≠ "")
    (hfresh : ∀ r ∈ db.users, r.username ≠ .jstr u) :
    register_user db [("username", .jstr u), ("password", .jstr p)] =
      ⟨200, .msg "User registered successfully",
        { db with users := db.users ++
            [⟨db.users.length + 1, .jstr u, .jstr p, .jstr "user"⟩] }⟩ ∧
    login_user
        { db with users := db.users ++
            [⟨db.users.length + 1, .jstr u, .jstr p, .jstr "user"⟩] }
        [("username", .jstr u), ("password", .jstr p)] =
      ⟨200, .loginOk "Login successful" (db.users.length + 1) (.jstr u) (.jstr "user"),
        { db with users := db.users ++
            [⟨db.users.length + 1, .jstr u, .jstr p, .jstr "user"⟩] }⟩ := by
  have htu : JVal.truthy (.jstr u) = true := by simp [JVal.truthy, hu]
  have htp : JVal.truthy (.jstr p) = true := by simp [JVal.truthy, hp]
  have hfind : List.find? (fun r => r.username == .jstr u) db.users = none := by
    rw [List.find?_eq_none]
    intro x hx
    simp [hfresh x hx]
  constructor
  · have e1 : register_user db [("username", .jstr u), ("password", .jstr p)] =
        if !(JVal.truthy (.jstr u)) || !(JVal.truthy (.jstr p)) then
          ⟨400, .err "Missing username or password", db⟩
        else if (List.find? (fun r => r.username == .jstr u) db.users).isSome then
          ⟨400, .err "Username already exists", db⟩
        else
          ⟨200, .msg "User registered successfully",
            { db with users := db.users ++
                [⟨db.users.length + 1, .jstr u, .jstr p, .jstr "user"⟩] }⟩ := rfl
    rw [e1, htu, htp, hfind]
    simp
  · have e2 : login_user
        { db with users := db.users ++
            [⟨db.users.length + 1, .jstr u, .jstr p, .jstr "user"⟩] }
        [("username", .jstr u), ("password", .jstr p)] =
        match List.find? (fun x => x.username == .jstr u && x.password == .jstr p)
            (db.users ++ [⟨db.users.length + 1, .jstr u, .jstr p, .jstr "user"⟩]) with
        | some user =>
          ⟨200, .loginOk "Login successful" user.id user.username user.role,
            { db with users := db.users ++
                [⟨db.users.length + 1, .jstr u, .jstr p, .jstr "user"⟩] }⟩
        | none =>
          ⟨400, .err "Invalid credentials",
            { db with users := db.users ++
                [⟨db.users.length + 1, .jstr u, .jstr p, .jstr "user"⟩] }⟩ := rfl
    have hfind2 : List.find? (fun x => x.username == .jstr u && x.password == .jstr p)
        (db.users ++ [⟨db.users.length + 1, .jstr u, .jstr p, .jstr "user"⟩]) =
        some ⟨db.users.length + 1, .jstr u, .jstr p, .jstr "user"⟩ := by
      rw [List.find?_append]
      have h1 : List.find? (fun x => x.username == .jstr u && x.password == .jstr p)
          db.users = none := by
        rw [List.find?_eq_none]
        intro x hx
        simp [hfresh x hx]
      rw [h1]
      simp
    rw [e2, hfind2]

/-- Witness for C1: registering `alice` with password `secret` in the empty
database succeeds and the subsequent login returns id 1, `alice`, role
`user`. -/
theorem C1_witness :
    register_user dbInit [("username", .jstr "alice"), ("password", .jstr "secret")] =
      ⟨200, .msg "User registered successfully",
        ⟨[⟨1, .jstr "alice", .jstr "secret", .jstr "user"⟩], [], [], []⟩⟩ ∧
    login_user ⟨[⟨1, .jstr "alice", .jstr "secret", .jstr "user"⟩], [], [], []⟩
        [("username", .jstr "alice"), ("password", .jstr "secret")] =
      ⟨200, .loginOk "Login successful" 1 (.jstr "alice") (.jstr "user"),
        ⟨[⟨1, .jstr "alice", .jstr "secret", .jstr "user"⟩], [], [], []⟩⟩ :=
  C1_register_then_login dbInit "alice" "secret" (by decide) (by decide)
    (by intro r hr; exact absurd hr (List.not_mem_nil r))

/-! ### C2 -/

/-- Claim C2, as stated, is false for an empty password: with `alice` already
registered, re-registering `alice` with password `""` is answered with the
missing-field error, not with "Username already exists". -/
theorem C2_counterexample :
    register_user ⟨[⟨1, .jstr "alice", .jstr "secret", .jstr "user"⟩], [], [], []⟩
        [("username", .jstr "alice"), ("password", .jstr "")] =
      ⟨400, .err "Missing username or password",
        ⟨[⟨1, .jstr "alice", .jstr "secret", .jstr "user"⟩], [], [], []⟩⟩ ∧
    register_user ⟨[⟨1, .jstr "alice", .jstr "secret", .jstr "user"⟩], [], [], []⟩
        [("username", .jstr "alice"), ("password", .jstr "")] ≠
      ⟨400, .err "Username already exists",
        ⟨[⟨1, .jstr "alice", .jstr "secret", .jstr "user"⟩], [], [], []⟩⟩ := by decide

/-- Claim C2 (amended: the supplied password must itself be truthy, i.e.
present and non-falsy; a missing or falsy password triggers the
missing-field error first): if some User row already has the requested
username, registration is answered 400 "Username already exists" and the
database, in particular the set of User rows, is unchanged. -/
theorem C2_duplicate_username (db : Db) (data : ReqBody)
    (hu : (data.get "username").truthy = true)
    (hp : (data.get "password").truthy = true)
    (hex : ∃ r ∈ db.users, r.username = data.get "username") :
    register_user db data = ⟨400, .err "Username already exists", db⟩ := by
  obtain ⟨r, hr, hru⟩ := hex
  have hfind : (List.find? (fun x => x.username == data.get "username")
      db.users).isSome = true := by
    rw [List.find?_isSome]
    exact ⟨r, hr, by simp [hru]⟩
  simp [register_user, hu, hp, hfind]

/-- Witness for C2: with `alice`/`secret` stored, registering `alice` with
the different password `other` yields the duplicate-username error and no
change. -/
theorem C2_witness :
    register_user ⟨[⟨1, .jstr "alice", .jstr "secret", .jstr "user"⟩], [], [], []⟩
        [("username", .jstr "alice"), ("password", .jstr "other")] =
      ⟨400, .err "Username already exists",
        ⟨[⟨1, .jstr "alice", .jstr "secret", .jstr "user"⟩], [], [], []⟩⟩ :=
  C2_duplicate_username ⟨[⟨1, .jstr "alice", .jstr "secret", .jstr "user"⟩], [], [], []⟩
    [("username", .jstr "alice"), ("password", .jstr "other")]
    (by decide) (by decide) ⟨⟨1, .jstr "alice", .jstr "secret", .jstr "user"⟩, by decide, by decide⟩

/-! ### C3 -/

/-- Claim C3: in any database respecting the UNIQUE constraint on usernames,
logging in with the username of a stored row and any password value other
than the stored one is answered 400 "Invalid credentials" and changes
nothing. -/
theorem C3_wrong_password (db : Db) (r : UserRow) (pw : JVal)
    (huniq : db.usernamesUnique) (hr : r ∈ db.users) (hpw : pw ≠ r.password) :
    login_user db [("username", r.username), ("password", pw)] =
      ⟨400, .err "Invalid credentials", db⟩ := by
  have hsym : Symmetric (fun a b : UserRow => a.username ≠ b.username) :=
    fun a b h e => h e.symm
  have huniq' := (huniq : db.users.Pairwise _).forall hsym
  have hfind : List.find? (fun x => x.username == r.username && x.password == pw)
      db.users = none := by
    rw [List.find?_eq_none]
    intro x hx
    simp only [Bool.and_eq_true, beq_iff_eq, not_and]
    intro hxu hxp
    rcases eq_or_ne x r with rfl | hne
    · exact hpw hxp.symm
    · exact huniq' hx hr hne hxu
  have e1 : login_user db [("username", r.username), ("password", pw)] =
      match List.find? (fun x => x.username == r.username && x.password == pw)
          db.users with
      | some user => ⟨200, .loginOk "Login successful" user.id user.username user.role, db⟩
      | none => ⟨400, .err "Invalid credentials", db⟩ := rfl
  rw [e1, hfind]

/-- Witness for C3: with `alice`/`secret` stored, logging in as `alice` with
password `wrong` fails with "Invalid credentials". -/
theorem C3_witness :
    login_user ⟨[⟨1, .jstr "alice", .jstr "secret", .jstr "user"⟩], [], [], []⟩
        [("username", .jstr "alice"), ("password", .jstr "wrong")] =
      ⟨400, .err "Invalid credentials",
        ⟨[⟨1, .jstr "alice", .jstr "secret", .jstr "user"⟩], [], [], []⟩⟩ :=
  C3_wrong_password ⟨[⟨1, .jstr "alice", .jstr "secret", .jstr "user"⟩], [], [], []⟩
    ⟨1, .jstr "alice", .jstr "secret", .jstr "user"⟩ (.jstr "wrong")
    (by constructor <;> simp) (by decide) (by decide)

/-! ### C4 -/

/-- Claim C4, as stated, is false: a create-event call with an empty body
(omitting `title` and `organizer_id`) does pass the handler's validation,
but committing the row violates the NOT NULL constraints declared on
`Event.title` / `Event.organizer_id`, so the request fails with HTTP 500
and no Event row is persisted — it does not return the success message. -/
theorem C4_counterexample :
    create_event dbInit [] = ⟨500, .empty, dbInit⟩ ∧
    (create_event dbInit []).db.events = [] := by decide

/-- Claim C4 (amended): a create-event call whose `title` or `organizer_id`
is null (in particular, omitted) passes the handler's (non-existent)
presence validation but NEVER persists an Event row and never returns the
success message, whatever the `date` field holds: the database is always
unchanged, and the response is 400 "Invalid date format" exactly when the
`date` field is a non-empty string on which the ISO-8601 parse fails; in
every other case (date absent or falsy, a parseable date string, or a
truthy non-string date) the call reaches the commit and fails on the NOT
NULL constraints of `Event.title` / `Event.organizer_id` with an unhandled
IntegrityError, HTTP 500. -/
theorem C4_missing_title_or_organizer (db : Db) (data : ReqBody)
    (hnull : data.get "title" = .null ∨ data.get "organizer_id" = .null) :
    (create_event db data).db = db ∧
    (create_event db data = ⟨400, .err "Invalid date format", db⟩ ∨
      create_event db data = ⟨500, .empty, db⟩) ∧
    (create_event db data = ⟨400, .err "Invalid date format", db⟩ ↔
      ∃ s, data.get "date" = .jstr s ∧ s ≠ "" ∧ fromisoformat s = none) := by
  have hins : ∀ dt : Option PyDateTime,
      insert_event db (data.get "title") (data.get "description") dt
        (data.get "location") (data.getD "price" (.jint 0))
        (data.get "organizer_id") = ⟨500, .empty, db⟩ := by
    intro dt
    rcases hnull with h | h <;> simp [insert_event, h]
  rcases hdv : data.get "date" with _ | b | n | s
  · have hres : create_event db data = ⟨500, .empty, db⟩ := by
      simp [create_event, hdv, JVal.truthy, hins]
    exact ⟨by rw [hres], Or.inr hres, by rw [hres]; simp [hdv]⟩
  · cases b
    · have hres : create_event db data = ⟨500, .empty, db⟩ := by
        simp [create_event, hdv, JVal.truthy, hins]
      exact ⟨by rw [hres], Or.inr hres, by rw [hres]; simp [hdv]⟩
    · have hres : create_event db data = ⟨500, .empty, db⟩ := by
        simp [create_event, hdv, JVal.truthy]
      exact ⟨by rw [hres], Or.inr hres, by rw [hres]; simp [hdv]⟩
  · rcases eq_or_ne n 0 with rfl | hn
    · have hres : create_event db data = ⟨500, .empty, db⟩ := by
        simp [create_event, hdv, JVal.truthy, hins]
      exact ⟨by rw [hres], Or.inr hres, by rw [hres]; simp [hdv]⟩
    · have hres : create_event db data = ⟨500, .empty, db⟩ := by
        simp [create_event, hdv, JVal.truthy, hn]
      exact ⟨by rw [hres], Or.inr hres, by rw [hres]; simp [hdv]⟩
  · rcases eq_or_ne s "" with rfl | hs
    · have hres : create_event db data = ⟨500, .empty, db⟩ := by
        simp [create_event, hdv, JVal.truthy, hins]
      exact ⟨by rw [hres], Or.inr hres, by rw [hres]; simp [hdv]⟩
    · rcases hfp : fromisoformat s with _ | dval
      · have hres : create_event db data = ⟨400, .err "Invalid date format", db⟩ := by
          simp [create_event, hdv, JVal.truthy, hs, hfp]
        exact ⟨by rw [hres], Or.inl hres,
          by rw [hres]; exact iff_of_true rfl ⟨s, rfl, hs, hfp⟩⟩
      · have hres : create_event db data = ⟨500, .empty, db⟩ := by
          simp [create_event, hdv, JVal.truthy, hs, hfp, hins]
        refine ⟨by rw [hres], Or.inr hres, ?_⟩
        rw [hres]
        constructor
        · intro hcontra
          exact absurd hcontra (by simp)
        · rintro ⟨s2, hs2, hne2, hp2⟩
          injection hs2 with hseq
          subst hseq
          rw [hfp] at hp2
          exact Option.noConfusion hp2

/-- Witness for C4: a body carrying only a valid date but no title: the
parse succeeds, the commit hits the NOT NULL constraint, the response is
the 500 of the second disjunct, and the database stays empty. -/
theorem C4_witness :
    (create_event dbInit [("date", .jstr "2026-01-01")]).db = dbInit ∧
    (create_event dbInit [("date", .jstr "2026-01-01")] =
        ⟨400, .err "Invalid date format", dbInit⟩ ∨
      create_event dbInit [("date", .jstr "2026-01-01")] = ⟨500, .empty, dbInit⟩) ∧
    (create_event dbInit [("date", .jstr "2026-01-01")] =
        ⟨400, .err "Invalid date format", dbInit⟩ ↔
      ∃ s, ReqBody.get [("date", .jstr "2026-01-01")] "date" = .jstr s ∧ s ≠ "" ∧
        fromisoformat s = none) :=
  C4_missing_title_or_organizer dbInit [("date", .jstr "2026-01-01")]
    (Or.inl (by decide))

/-! ### C5 -/

/-- Claim C5: a create-event call whose `date` field is a non-empty string
on which the ISO-8601 parse fails is answered 400 "Invalid date format" and
the database, in particular the event table, is unchanged. -/
theorem C5_invalid_date (db : Db) (data : ReqBody) (s : String)
    (hdate : data.get "date" = .jstr s) (hne : s ≠ "")
    (hparse : fromisoformat s = none) :
    create_event db data = ⟨400, .err "Invalid date format", db⟩ := by
  have htruthy : (JVal.jstr s).truthy = true := by simp [JVal.truthy, hne]
  simp [create_event, hdate, htruthy, hparse]

/-- Witness for C5: `date` equal to `"not-a-date"` yields the
invalid-date-format error and no change. -/
theorem C5_witness :
    create_event dbInit [("date", .jstr "not-a-date")] =
      ⟨400, .err "Invalid date format", dbInit⟩ :=
  C5_invalid_date dbInit [("date", .jstr "not-a-date")] "not-a-date"
    (by decide) (by decide) (by decide)

/-! ### C6 -/

/-- Claim C6: a process-payment call is answered 400 "Missing payment
details" with no Payment row inserted whenever any of `user_id`,
`event_id`, `amount`, `payment_method` is missing or falsy; otherwise it
appends exactly one Payment row with status `"successful"` and returns
paymentStatus `"successful"`. -/
theorem C6_process_payment (db : Db) (data : ReqBody) (now : PyDateTime) :
    (¬((data.get "user_id").truthy = true ∧ (data.get "event_id").truthy = true ∧
        (data.get "amount").truthy = true ∧ (data.get "payment_method").truthy = true) →
      process_payment db data now = ⟨400, .err "Missing payment details", db⟩) ∧
    (((data.get "user_id").truthy = true ∧ (data.get "event_id").truthy = true ∧
        (data.get "amount").truthy = true ∧ (data.get "payment_method").truthy = true) →
      process_payment db data now =
        ⟨200, .payOk "Payment processed successfully" "successful",
          { db with payments := db.payments ++
              [⟨db.payments.length + 1, data.get "user_id", data.get "event_id",
                data.get "amount", data.get "payment_method", "successful", now⟩] }⟩) := by
  constructor
  · intro h
    have hb : ((data.get "user_id").truthy && (data.get "event_id").truthy &&
        (data.get "amount").truthy && (data.get "payment_method").truthy) = false := by
      rcases Bool.eq_false_or_eq_true ((data.get "user_id").truthy &&
          (data.get "event_id").truthy && (data.get "amount").truthy &&
          (data.get "payment_method").truthy) with ht | hf
      · simp only [Bool.and_eq_true] at ht
        exact absurd ⟨ht.1.1.1, ht.1.1.2, ht.1.2, ht.2⟩ h
      · exact hf
    simp [process_payment, hb]
  · intro h
    obtain ⟨h1, h2, h3, h4⟩ := h
    simp [process_payment, h1, h2, h3, h4]

/-- Witness for C6: a body missing `payment_method` is rejected with no
insert, and the full body produces exactly one `"successful"` Payment row
and paymentStatus `"successful"`. -/
theorem C6_witness :
    process_payment dbInit
        [("user_id", .jint 1), ("event_id", .jint 1), ("amount", .jint 10)]
        ⟨2026, 1, 1, 0, 0, 0, 0, none⟩ =
      ⟨400, .err "Missing payment details", dbInit⟩ ∧
    process_payment dbInit
        [("user_id", .jint 1), ("event_id", .jint 1), ("amount", .jint 10),
          ("payment_method", .jstr "card")]
        ⟨2026, 1, 1, 0, 0, 0, 0, none⟩ =
      ⟨200, .payOk "Payment processed successfully" "successful",
        ⟨[], [], [],
          [⟨1, .jint 1, .jint 1, .jint 10, .jstr "card", "successful",
            ⟨2026, 1, 1, 0, 0, 0, 0, none⟩⟩]⟩⟩ :=
  ⟨(C6_process_payment dbInit
      [("user_id", .jint 1), ("event_id", .jint 1), ("amount", .jint 10)]
      ⟨2026, 1, 1, 0, 0, 0, 0, none⟩).1 (by decide),
   (C6_process_payment dbInit
      [("user_id", .jint 1), ("event_id", .jint 1), ("amount", .jint 10),
        ("payment_method", .jstr "card")]
      ⟨2026, 1, 1, 0, 0, 0, 0, none⟩).2 (by decide)⟩

/-! ### C7 -/

theorem apply_payments_append (db : Db) (r : Req) :
    ∃ t, (Req.apply db r).db.payments = db.payments ++ t ∧
      ∀ pr ∈ t, pr.status = "successful" := by
  cases r with
  | registerUser data =>
    refine ⟨[], ?_, by simp⟩
    unfold Req.apply register_user
    dsimp only
    repeat' split
    all_goals simp
  | loginUser data =>
    refine ⟨[], ?_, by simp⟩
    unfold Req.apply login_user
    dsimp only
    repeat' split
    all_goals simp
  | getEvents =>
    exact ⟨[], by simp [Req.apply, get_events], by simp⟩
  | getEvent event_id =>
    refine ⟨[], ?_, by simp⟩
    unfold Req.apply get_event
    dsimp only
    repeat' split
    all_goals simp
  | createEvent data =>
    refine ⟨[], ?_, by simp⟩
    unfold Req.apply create_event insert_event
    dsimp only
    repeat' split
    all_goals simp
  | registerToEvent data =>
    refine ⟨[], ?_, by simp⟩
    unfold Req.apply register_to_event
    dsimp only
    repeat' split
    all_goals simp
  | processPayment data now =>
    unfold Req.apply process_payment
    dsimp only
    split
    · exact ⟨[], by simp, by simp⟩
    · exact ⟨[⟨db.payments.length + 1, data.get "user_id", data.get "event_id",
        data.get "amount", data.get "payment_method", "successful", now⟩],
        rfl, by intro pr hpr; simp at hpr; subst hpr; rfl⟩

/-- Claim C7: in every database reachable through the API, every Payment row
has status `"successful"` (the declared `"pending"` / `"failed"` values are
never produced), and no request ever changes an existing Payment row: each
request leaves the payment table a prefix of the new one. -/
theorem C7_payment_status_invariant :
    (∀ db, Reachable db → ∀ pr ∈ db.payments,
      pr.status = "successful" ∧ pr.status ≠ "pending" ∧ pr.status ≠ "failed") ∧
    (∀ db r, ∃ t, (Req.apply db r).db.payments = db.payments ++ t ∧
      ∀ pr ∈ t, pr.status = "successful") := by
  refine ⟨?_, apply_payments_append⟩
  intro db h
  induction h with
  | init => intro pr hpr; simp [dbInit] at hpr
  | step r hdb ih =>
    intro pr hpr
    obtain ⟨t, ht, hts⟩ := apply_payments_append _ r
    rw [ht] at hpr
    rcases List.mem_append.mp hpr with hmem | hmem
    · exact ih pr hmem
    · have hs := hts pr hmem
      refine ⟨hs, ?_, ?_⟩ <;> simp [hs]

/-- Witness for C7: the database reached by one successful payment call from
the empty database contains the payment row below, and the invariant gives
its status is `"successful"` and neither `"pending"` nor `"failed"`. -/
theorem C7_witness :
    (⟨1, .jint 1, .jint 1, .jint 10, .jstr "card", "successful",
      ⟨2026, 1, 1, 0, 0, 0, 0, none⟩⟩ : PaymentRow).status = "successful" ∧
    (⟨1, .jint 1, .jint 1, .jint 10, .jstr "card", "successful",
      ⟨2026, 1, 1, 0, 0, 0, 0, none⟩⟩ : PaymentRow).status ≠ "pending" ∧
    (⟨1, .jint 1, .jint 1, .jint 10, .jstr "card", "successful",
      ⟨2026, 1, 1, 0, 0, 0, 0, none⟩⟩ : PaymentRow).status ≠ "failed" :=
  C7_payment_status_invariant.1
    (Req.apply dbInit (.processPayment
      [("user_id", .jint 1), ("event_id", .jint 1), ("amount", .jint 10),
        ("payment_method", .jstr "card")] ⟨2026, 1, 1, 0, 0, 0, 0, none⟩)).db
    (Reachable.step _ Reachable.init)
    ⟨1, .jint 1, .jint 1, .jint 10, .jstr "card", "successful",
      ⟨2026, 1, 1, 0, 0, 0, 0, none⟩⟩
    (by decide)

/-! ### C8 -/

/-- Claim C8: the list-events call returns status 200, leaves the database
unchanged, and its body is exactly one summary per stored Event row in
insertion order (the i-th summary comes from the i-th row, and the lengths
agree), where each summary's `date` field is the ISO-8601 string of the
stored timestamp, or null when the stored date is null. -/
theorem C8_get_events (db : Db) (i : Nat) :
    (get_events db).status = 200 ∧ (get_events db).db = db ∧
    (get_events db).body = .eventList (db.events.map event_to_json) ∧
    (db.events.map event_to_json).length = db.events.length ∧
    (db.events.map event_to_json)[i]? = db.events[i]?.map event_to_json ∧
    ∀ e : EventRow, (event_to_json e).date =
      (match e.date with
       | some d => .jstr d.isoformat
       | none => .null) := by
  refine ⟨rfl, rfl, ?_, by simp, by simp, fun e => rfl⟩
  show RespBody.eventList (db.events.foldl (fun a e => a ++ [event_to_json e]) []) = _
  rw [foldl_event_to_json]
  simp

/-! ### C9 -/

/-- Claim C9: a register-to-event call whose `attendee_id` or `event_id` is
falsy (in particular present but equal to 0, or absent, which reads as
null) is rejected with 400 "Missing attendee_id or event_id" and the
database, in particular the registration table, is unchanged — the same
outcome as when the field is absent. -/
theorem C9_falsy_registration_ids (db : Db) (data : ReqBody)
    (h : (data.get "attendee_id").truthy = false ∨
      (data.get "event_id").truthy = false) :
    register_to_event db data = ⟨400, .err "Missing attendee_id or event_id", db⟩ := by
  rcases h with h | h <;> simp [register_to_event, h]

/-- Witness for C9: `attendee_id` present but 0 (with a valid `event_id`) is
rejected exactly like an absent field, with no insert. -/
theorem C9_witness :
    register_to_event dbInit [("attendee_id", .jint 0), ("event_id", .jint 1)] =
      ⟨400, .err "Missing attendee_id or event_id", dbInit⟩ :=
  C9_falsy_registration_ids dbInit
    [("attendee_id", .jint 0), ("event_id", .jint 1)] (Or.inl (by decide))

/-! ### C10 -/

/-- Claim C10, as stated, is false: with `date` equal to `""` and nothing
else in the body, the empty string is indeed not treated as a malformed
date, but the call does not succeed: the NOT NULL constraints on
`Event.title` / `Event.organizer_id` make the insert fail (HTTP 500) and no
Event row is persisted. -/
theorem C10_counterexample :
    create_event dbInit [("date", .jstr "")] = ⟨500, .empty, dbInit⟩ ∧
    (create_event dbInit [("date", .jstr "")]).db.events = [] := by decide

/-- Claim C10 (amended: provided `title` and `organizer_id` are non-null so
that the insert itself can succeed): a `date` field equal to `""` is falsy,
so it is not parsed and never yields "Invalid date format"; the call
behaves exactly as if the `date` field were absent, succeeds, and persists
an Event row whose date is null. -/
theorem C10_empty_date (db : Db) (rest : ReqBody)
    (hdate : rest.get "date" = .null) :
    create_event db (("date", .jstr "") :: rest) = create_event db rest ∧
    (rest.get "title" ≠ .null → rest.get "organizer_id" ≠ .null →
      create_event db (("date", .jstr "") :: rest) =
        ⟨200, .msg "Event created successfully",
          { db with events := db.events ++
              [⟨db.events.length + 1, rest.get "title", rest.get "description", none,
                rest.get "location", rest.getD "price" (.jint 0),
                rest.get "organizer_id"⟩] }⟩) := by
  have hT : ReqBody.get (("date", .jstr "") :: rest) "title" = rest.get "title" :=
    ReqBody.get_cons_ne rest "title" "date" (.jstr "") (by decide)
  have hDesc : ReqBody.get (("date", .jstr "") :: rest) "description" =
      rest.get "description" :=
    ReqBody.get_cons_ne rest "description" "date" (.jstr "") (by decide)
  have hLoc : ReqBody.get (("date", .jstr "") :: rest) "location" = rest.get "location" :=
    ReqBody.get_cons_ne rest "location" "date" (.jstr "") (by decide)
  have hPrice : ReqBody.getD (("date", .jstr "") :: rest) "price" (.jint 0) =
      rest.getD "price" (.jint 0) :=
    ReqBody.getD_cons_ne rest "price" "date" (.jstr "") (.jint 0) (by decide)
  have hOrg : ReqBody.get (("date", .jstr "") :: rest) "organizer_id" =
      rest.get "organizer_id" :=
    ReqBody.get_cons_ne rest "organizer_id" "date" (.jstr "") (by decide)
  have e1 : create_event db (("date", .jstr "") :: rest) =
      insert_event db (ReqBody.get (("date", .jstr "") :: rest) "title")
        (ReqBody.get (("date", .jstr "") :: rest) "description") none
        (ReqBody.get (("date", .jstr "") :: rest) "location")
        (ReqBody.getD (("date", .jstr "") :: rest) "price" (.jint 0))
        (ReqBody.get (("date", .jstr "") :: rest) "organizer_id") := rfl
  have e2 : create_event db rest =
      insert_event db (rest.get "title") (rest.get "description") none
        (rest.get "location") (rest.getD "price" (.jint 0))
        (rest.get "organizer_id") := by
    simp [create_event, hdate, JVal.truthy]
  constructor
  · rw [e1, e2, hT, hDesc, hLoc, hPrice, hOrg]
  · intro ht ho
    rw [e1, hT, hDesc, hLoc, hPrice, hOrg]
    have hb1 : (rest.get "title" == JVal.null) = false := beq_eq_false_iff_ne.mpr ht
    have hb2 : (rest.get "organizer_id" == JVal.null) = false :=
      beq_eq_false_iff_ne.mpr ho
    simp [insert_event, hb1, hb2]

/-- Witness for C10: with title `Conf` and organizer 1, `date` equal to `""`
gives the same result as omitting `date`, namely success with a null-date
Event row. -/
theorem C10_witness :
    create_event dbInit
        [("date", .jstr ""), ("title", .jstr "Conf"), ("organizer_id", .jint 1)] =
      create_event dbInit [("title", .jstr "Conf"), ("organizer_id", .jint 1)] ∧
    create_event dbInit
        [("date", .jstr ""), ("title", .jstr "Conf"), ("organizer_id", .jint 1)] =
      ⟨200, .msg "Event created successfully",
        ⟨[], [⟨1, .jstr "Conf", .null, none, .null, .jint 0, .jint 1⟩], [], []⟩⟩ :=
  ⟨(C10_empty_date dbInit [("title", .jstr "Conf"), ("organizer_id", .jint 1)]
      (by decide)).1,
   (C10_empty_date dbInit [("title", .jstr "Conf"), ("organizer_id", .jint 1)]
      (by decide)).2 (by decide) (by decide)⟩
